import Mathlib

/-!
Verification development for the SecureAuditAI compliance pipeline.

The definitions below are a shallow embedding of the Python modules
`src/agent/compliance_analyzer.py`, `src/agent/main.py` and
`src/agent/report_generator.py`:

* JSON-like Python values are modelled by the inductive type `PyVal`
  (dictionaries are association lists with string keys, as produced by
  `json.loads`; the first binding for a key is the dictionary's binding).
* Python truthiness (`if config.get(...)`) is modelled by `truthy`, and
  Python `==` by `pyEq` (structural, with the bool/int coercion; no code
  path in the pipeline compares two lists or two dictionaries, so the
  order-sensitive container cases are never exercised).
* Code that can raise (`config.get` on a non-dict, `'*' in permissions`
  on a non-container) is modelled in `Except String`, the error string
  standing for the Python exception type.
* `datetime.utcnow().isoformat()` is passed in as an explicit `now`
  argument, so that time-dependence is visible in the statements.
* Python floats are modelled by exact rationals `ℚ`.
-/

namespace SecureAuditAI

/-- JSON-like Python value (the shapes flowing through the pipeline). -/
inductive PyVal where
  | none
  | bool (b : Bool)
  | int (n : Int)
  | str (s : String)
  | list (xs : List PyVal)
  | dict (kvs : List (String × PyVal))

/-- A Python dictionary with string keys, as an association list. -/
abbrev Dict := List (String × PyVal)

/-- Python truthiness of a value (`bool(v)`). -/
def truthy : PyVal → Bool
  | .none => false
  | .bool b => b
  | .int n => n != 0
  | .str s => s != ""
  | .list xs => !xs.isEmpty
  | .dict kvs => !kvs.isEmpty

mutual

/-- Python `==` on values: structural equality with the numeric
bool/int identification (`True == 1`, `False == 0`). -/
def pyEq : PyVal → PyVal → Bool
  | .none, .none => true
  | .bool a, .bool b => a == b
  | .bool a, .int n => (if a then (1 : Int) else 0) == n
  | .int n, .bool a => n == (if a then (1 : Int) else 0)
  | .int a, .int b => a == b
  | .str a, .str b => a == b
  | .list xs, .list ys => pyEqList xs ys
  | .dict xs, .dict ys => pyEqDict xs ys
  | _, _ => false

/-- Elementwise `==` on lists. -/
def pyEqList : List PyVal → List PyVal → Bool
  | [], [] => true
  | x :: xs, y :: ys => pyEq x y && pyEqList xs ys
  | _, _ => false

/-- Entrywise `==` on dictionaries (association lists). -/
def pyEqDict : List (String × PyVal) → List (String × PyVal) → Bool
  | [], [] => true
  | (k, v) :: xs, (l, w) :: ys => k == l && pyEq v w && pyEqDict xs ys
  | _, _ => false

end

/-- `d.get(key, dflt)` on a dictionary. -/
def dGet (d : Dict) (key : String) (dflt : PyVal) : PyVal :=
  (d.lookup key).getD dflt

/-- `v.get(key, dflt)` on an arbitrary value: raises `AttributeError`
unless `v` is a dictionary. -/
def getAttr (v : PyVal) (key : String) (dflt : PyVal) : Except String PyVal :=
  match v with
  | .dict kvs => .ok (dGet kvs key dflt)
  | _ => .error "AttributeError"

mutual

/-- Python `repr` of a value (string escaping inside quotes is not
reproduced; no value in the pipeline relies on it). -/
def pyRepr : PyVal → String
  | .none => "None"
  | .bool b => if b then "True" else "False"
  | .int n => toString n
  | .str s => "\x27" ++ s ++ "\x27"
  | .list xs => "[" ++ String.intercalate ", " (pyReprList xs) ++ "]"
  | .dict kvs => "\x7b" ++ String.intercalate ", " (pyReprDict kvs) ++ "\x7d"

/-- `repr` of each element of a list. -/
def pyReprList : List PyVal → List String
  | [] => []
  | x :: xs => pyRepr x :: pyReprList xs

/-- `repr` of each `key: value` entry of a dictionary. -/
def pyReprDict : List (String × PyVal) → List String
  | [] => []
  | (k, v) :: xs => ("\x27" ++ k ++ "\x27: " ++ pyRepr v) :: pyReprDict xs

end

/-- Python `str(v)` (as used by f-string interpolation). -/
def pyStr : PyVal → String
  | .str s => s
  | v => pyRepr v

/-- `needle` is a leading block of `haystack`. -/
def startsWithChars : List Char → List Char → Bool
  | [], _ => true
  | _ :: _, [] => false
  | a :: as, b :: bs => a == b && startsWithChars as bs

/-- `needle` occurs contiguously somewhere in `haystack`
(Python `needle in haystack` on strings, on the character lists). -/
def occursIn (needle : List Char) : List Char → Bool
  | [] => needle.isEmpty
  | b :: bs => startsWithChars needle (b :: bs) || occursIn needle bs

/-- Python `x in container`: list membership, substring test on strings,
key membership on dictionaries; `TypeError` on non-containers. -/
def pyContains (container x : PyVal) : Except String Bool :=
  match container with
  | .list xs => .ok (xs.any (fun v => pyEq v x))
  | .str s =>
      match x with
      | .str sub => .ok (occursIn sub.data s.data)
      | _ => .error "TypeError"
  | .dict kvs =>
      match x with
      | .str k => .ok (kvs.any (fun p => p.1 == k))
      | _ => .ok false
  | _ => .error "TypeError"

/-! ## Rule engine (`ComplianceAnalyzer._rule_based_analysis`) -/

/-- The S3 public-access finding appended at
`compliance_analyzer.py:179-194`. -/
def s3_public_finding (framework : String) (resource : Dict) (now : String) : Dict :=
  [("title", .str ("S3 Bucket Public Access (" ++ framework ++ ")")),
   ("description", .str ("S3 bucket " ++ pyStr (dGet resource "id" .none) ++
      " has public access enabled")),
   ("severity", .str "HIGH"),
   ("resourceType", dGet resource "type" (.str "")),
   ("resourceId", dGet resource "id" .none),
   ("complianceFrameworks", .list [.str framework]),
   ("riskScore", .int 75),
   ("remediationSteps", .list
      [.str "Disable public access on S3 bucket",
       .str "Review bucket policy for public permissions",
       .str "Enable S3 Block Public Access"]),
   ("requirement", .str (framework ++ ": Data protection requirements")),
   ("createdAt", .str now)]

/-- The S3 missing-encryption finding appended at
`compliance_analyzer.py:197-211`. -/
def s3_encryption_finding (framework : String) (resource : Dict) (now : String) : Dict :=
  [("title", .str ("S3 Bucket Encryption (" ++ framework ++ ")")),
   ("description", .str ("S3 bucket " ++ pyStr (dGet resource "id" .none) ++
      " does not have encryption enabled")),
   ("severity", .str "MEDIUM"),
   ("resourceType", dGet resource "type" (.str "")),
   ("resourceId", dGet resource "id" .none),
   ("complianceFrameworks", .list [.str framework]),
   ("riskScore", .int 60),
   ("remediationSteps", .list
      [.str "Enable S3 default encryption",
       .str "Use AES-256 or AWS-KMS encryption"]),
   ("requirement", .str (framework ++ ": Encryption requirements")),
   ("createdAt", .str now)]

/-- The EC2 public-IP finding appended at `compliance_analyzer.py:216-231`. -/
def ec2_public_ip_finding (framework : String) (resource : Dict) (now : String) : Dict :=
  [("title", .str ("EC2 Public IP Exposure (" ++ framework ++ ")")),
   ("description", .str ("EC2 instance " ++ pyStr (dGet resource "id" .none) ++
      " has a public IP address")),
   ("severity", .str "MEDIUM"),
   ("resourceType", dGet resource "type" (.str "")),
   ("resourceId", dGet resource "id" .none),
   ("complianceFrameworks", .list [.str framework]),
   ("riskScore", .int 50),
   ("remediationSteps", .list
      [.str "Review security group configurations",
       .str "Consider using private subnets",
       .str "Implement proper network access controls"]),
   ("requirement", .str (framework ++ ": Network security requirements")),
   ("createdAt", .str now)]

/-- The IAM wildcard-permission finding appended at
`compliance_analyzer.py:237-252`. -/
def iam_wildcard_finding (framework : String) (resource : Dict) (now : String) : Dict :=
  [("title", .str ("Over-Privileged IAM Role (" ++ framework ++ ")")),
   ("description", .str ("IAM role " ++ pyStr (dGet resource "id" .none) ++
      " has wildcard permissions")),
   ("severity", .str "CRITICAL"),
   ("resourceType", dGet resource "type" (.str "")),
   ("resourceId", dGet resource "id" .none),
   ("complianceFrameworks", .list [.str framework]),
   ("riskScore", .int 90),
   ("remediationSteps", .list
      [.str "Remove wildcard permissions",
       .str "Apply principle of least privilege",
       .str "Use specific IAM actions only"]),
   ("requirement", .str (framework ++ ": Least privilege requirements")),
   ("createdAt", .str now)]

/-- The Lambda sensitive-environment finding appended at
`compliance_analyzer.py:264-279`. -/
def lambda_sensitive_env_finding (framework : String) (resource : Dict) (now : String) : Dict :=
  [("title", .str ("Sensitive Data in Lambda Environment (" ++ framework ++ ")")),
   ("description", .str ("Lambda function " ++ pyStr (dGet resource "id" .none) ++
      " contains sensitive data in environment variables")),
   ("severity", .str "HIGH"),
   ("resourceType", dGet resource "type" (.str "")),
   ("resourceId", dGet resource "id" .none),
   ("complianceFrameworks", .list [.str framework]),
   ("riskScore", .int 70),
   ("remediationSteps", .list
      [.str "Remove sensitive data from environment variables",
       .str "Use AWS Secrets Manager or Parameter Store",
       .str "Update function configuration"]),
   ("requirement", .str (framework ++ ": Data protection requirements")),
   ("createdAt", .str now)]

/-- The substring patterns of `compliance_analyzer.py:257`. -/
def sensitive_patterns : List String := ["password", "secret", "token", "key"]

/-- `ComplianceAnalyzer._rule_based_analysis` (compliance_analyzer.py:170-281).
`now` stands for `datetime.utcnow().isoformat()`; an `.error` result models a
raised Python exception (possible only when `config` or one of the probed
attribute values has an unexpected non-container shape). -/
def rule_based_analysis (framework : String) (resource : Dict) (now : String) :
    Except String (List Dict) :=
  let resource_type := dGet resource "type" (.str "")
  let config := dGet resource "config" (.dict [])
  if pyEq resource_type (.str "S3_BUCKET") then
    match getAttr config "publicAccess" (.bool false) with
    | .error e => .error e
    | .ok pub =>
        match getAttr config "encryption" (.bool false) with
        | .error e => .error e
        | .ok enc =>
            .ok ((if truthy pub then [s3_public_finding framework resource now] else []) ++
                 (if !truthy enc then [s3_encryption_finding framework resource now] else []))
  else if pyEq resource_type (.str "EC2_INSTANCE") then
    match getAttr config "publicIp" (.bool false) with
    | .error e => .error e
    | .ok pip =>
        .ok (if truthy pip then [ec2_public_ip_finding framework resource now] else [])
  else if pyEq resource_type (.str "IAM_ROLE") then
    match getAttr config "permissions" (.list []) with
    | .error e => .error e
    | .ok permissions =>
        match pyContains permissions (.str "*") with
        | .error e => .error e
        | .ok star =>
            .ok (if star then [iam_wildcard_finding framework resource now] else [])
  else if pyEq resource_type (.str "LAMBDA_FUNCTION") then
    match getAttr config "environmentVariables" (.dict []) with
    | .error e => .error e
    | .ok env_vars =>
        match env_vars with
        | .dict kvs =>
            .ok (if kvs.any (fun p => sensitive_patterns.any
                    (fun pat => occursIn pat.data p.1.toLower.data))
                 then [lambda_sensitive_env_finding framework resource now] else [])
        | _ => .error "AttributeError"
  else .ok []

/-! ## Finding normalizer (`ComplianceAnalyzer._parse_analysis_result`) -/

/-- The `structured_finding` dictionary built for one candidate at
`compliance_analyzer.py:154-165`. -/
def structured_finding (framework : String) (resource : Dict) (finding : Dict)
    (now : String) : Dict :=
  [("title", dGet finding "title" (.str (framework ++ " Compliance Issue"))),
   ("description", dGet finding "description" (.str "Compliance violation detected")),
   ("severity", dGet finding "severity" (.str "MEDIUM")),
   ("resourceType", dGet resource "type" (.str "Unknown")),
   ("resourceId", dGet resource "id" (.str "Unknown")),
   ("complianceFrameworks", PyVal.list [.str framework]),
   ("riskScore", dGet finding "riskScore" (.int 50)),
   ("remediationSteps", dGet finding "remediationSteps" (.list [])),
   ("requirement", dGet finding "requirement" (.str (framework ++ " requirement"))),
   ("createdAt", .str now)]

/-- The `for finding in analysis_result` loop of
`compliance_analyzer.py:153-166`: one structured finding per candidate
(`.get` on a non-dict candidate raises). -/
def parse_candidates (framework : String) (resource : Dict) (now : String) :
    List PyVal → Except String (List Dict)
  | [] => .ok []
  | c :: cs =>
      match c with
      | .dict kvs =>
          (parse_candidates framework resource now cs).map
            (fun rest => structured_finding framework resource kvs now :: rest)
      | _ => .error "AttributeError"

/-- `ComplianceAnalyzer._parse_analysis_result` (compliance_analyzer.py:148-168):
a non-list analyzer output yields no findings; a list yields one structured
finding per candidate. -/
def parse_analysis_result (framework : String) (resource : Dict)
    (analysis_result : PyVal) (now : String) : Except String (List Dict) :=
  match analysis_result with
  | .list cands => parse_candidates framework resource now cands
  | _ => .ok []

/-! ## Scoring (`audit_compliance`, main.py:53-67) -/

/-- `finding.get('riskScore', 50)` (main.py:60). -/
def riskScoreVal (finding : Dict) : PyVal := dGet finding "riskScore" (.int 50)

/-- A Python value used as a number by `sum`/`-`; non-numeric values make
Python raise, modelled by `Option.none` (bools count as 0/1). -/
def pyNum : PyVal → Option ℚ
  | .int n => some (n : ℚ)
  | .bool b => some (if b then 1 else 0)
  | _ => Option.none

/-- `sum(finding.get('riskScore', 50) for finding in findings)` (main.py:60):
`none` models the `TypeError` Python raises on a non-numeric value. -/
def sum_risk : List Dict → Option ℚ
  | [] => some 0
  | f :: fs => do
      let x ← pyNum (riskScoreVal f)
      let rest ← sum_risk fs
      some (x + rest)

/-- The per-framework score of main.py:59-63: `100.0` for an empty finding
list, otherwise `max(0, 100 - mean(riskScore))`. -/
def framework_score (framework_findings : List Dict) : Option ℚ :=
  if framework_findings.isEmpty then some 100
  else
    (sum_risk framework_findings).map
      (fun s => max 0 (100 - s / (framework_findings.length : ℚ)))

/-- The risk score of a finding read as a rational (`0` for a non-numeric
value; the scoring theorems below hypothesise integer risk scores, under
which this coincides with what Python sums). -/
def riskNum (f : Dict) : ℚ := (pyNum (riskScoreVal f)).getD 0

/-- The per-framework score formula as §4.3 of the specification states it:
`100.0` for a framework with no findings, else
`max(0, 100 - mean(riskScore))`.  Stated separately from `framework_score`
(the code's computation) so the two can be compared. -/
def spec_framework_score (findingsFor : String → List Dict) (fw : String) : ℚ :=
  if (findingsFor fw).isEmpty then 100
  else max 0 (100 - ((findingsFor fw).map riskNum).sum / (((findingsFor fw).length : ℚ)))

/-- Python dictionary assignment `d[k] = v`: replaces the binding in place
if the key exists, else appends it. -/
def dictInsert (d : List (String × ℚ)) (k : String) (v : ℚ) : List (String × ℚ) :=
  if d.any (fun p => p.1 == k) then d.map (fun p => if p.1 == k then (k, v) else p)
  else d ++ [(k, v)]

/-- The `for framework in compliance_frameworks` loop of main.py:53-63, with
`scores` the dictionary accumulated so far. -/
def compliance_scores_loop (findingsFor : String → List Dict)
    (scores : List (String × ℚ)) : List String → Option (List (String × ℚ))
  | [] => some scores
  | fw :: fws =>
      match framework_score (findingsFor fw) with
      | some s => compliance_scores_loop findingsFor (dictInsert scores fw s) fws
      | Option.none => Option.none

/-- The `compliance_scores` dictionary built by the loop of main.py:53-63,
with `findingsFor fw` standing for the findings `analyze_compliance` returns
for framework `fw` (deterministic per framework within a run). -/
def compliance_scores (compliance_frameworks : List String)
    (findingsFor : String → List Dict) : Option (List (String × ℚ)) :=
  compliance_scores_loop findingsFor [] compliance_frameworks

/-- The overall score of main.py:67: mean of the per-framework scores, or
`100.0` for an empty scores dictionary. -/
def overall_score (scores : List (String × ℚ)) : ℚ :=
  if scores.isEmpty then 100 else (scores.map Prod.snd).sum / (scores.length : ℚ)

/-! ## Report compiler (`ComplianceReportGenerator`) -/

/-- `f.get('severity') == tok` for a string token `tok`
(report_generator.py:85-88). -/
def sevIs (tok : String) (f : Dict) : Bool :=
  match f.lookup "severity" with
  | some (.str s) => s == tok
  | _ => false

/-- The `findings_by_severity` grouping of
`ComplianceReportGenerator._create_report_content` (report_generator.py:84-89). -/
def findings_by_severity (findings : List Dict) : List (String × List Dict) :=
  [("CRITICAL", findings.filter (sevIs "CRITICAL")),
   ("HIGH", findings.filter (sevIs "HIGH")),
   ("MEDIUM", findings.filter (sevIs "MEDIUM")),
   ("LOW", findings.filter (sevIs "LOW"))]

/-- The result dictionary of
`ComplianceReportGenerator.generate_compliance_report`
(both the success shape of report_generator.py:51-61 and the error shape of
report_generator.py:64-70), as a typed record; absent keys are `none`. -/
structure ReportResult where
  reportId : String
  auditRunId : String
  generatedAt : String
  s3Location : Option String
  s3Key : Option String
  findingsCount : Option Nat
  overallScore : Option ℚ
  frameworks : Option (List String)
  status : String
  error : Option String

/-- The S3 object key of report_generator.py:48 (`ts` stands for
`datetime.utcnow().strftime('%Y%m%d-%H%M%S')`). -/
def report_key (audit_run_id ts : String) : String :=
  "reports/" ++ audit_run_id ++ "/compliance-report-" ++ ts ++ ".pdf"

/-- `ComplianceReportGenerator.generate_compliance_report`
(report_generator.py:38-70). The fallible steps inside the `try` block
(content creation, PDF rendering, S3 upload) are abstracted by `upload`:
`.ok url` is the presigned URL of a successful upload, `.error e` is the
message of whatever exception the block raised. `report_id` stands for
`str(uuid.uuid4())`, `now` for `datetime.utcnow().isoformat()`. -/
def generate_compliance_report (audit_run_id : String) (findings : List Dict)
    (compliance_scores_arg : List (String × ℚ)) (overall_score_arg : ℚ)
    (frameworks : List String) (resources_scanned : Nat)
    (report_id now ts : String) (upload : Except String String) : ReportResult :=
  match upload with
  | .ok s3_url =>
      { reportId := report_id
        auditRunId := audit_run_id
        generatedAt := now
        s3Location := some s3_url
        s3Key := some (report_key audit_run_id ts)
        findingsCount := some findings.length
        overallScore := some overall_score_arg
        frameworks := some frameworks
        status := "COMPLETED"
        error := Option.none }
  | .error e =>
      { reportId := report_id
        auditRunId := audit_run_id
        generatedAt := now
        s3Location := Option.none
        s3Key := Option.none
        findingsCount := Option.none
        overallScore := Option.none
        frameworks := Option.none
        status := "ERROR"
        error := some e }

/-- Drop the `createdAt` field of a finding (the one field whose value
depends on the wall clock). -/
def eraseCreatedAt (f : Dict) : Dict := f.filter (fun p => p.1 != "createdAt")

/-! ## Theorems -/

/-- Claim C1: for every framework string (and any clock value), the rule-based
analyzer on the S3 bucket `{type: S3_BUCKET, id: "b1",
config: {publicAccess: true, encryption: false}}` returns exactly two
findings: the public-access finding with severity HIGH and riskScore 75,
and the encryption finding with severity MEDIUM and riskScore 60 — both
conditions fire independently on this input. -/
theorem c1_s3_bucket_two_findings (framework now : String) :
    ∃ f₁ f₂,
      rule_based_analysis framework
          [("type", .str "S3_BUCKET"), ("id", .str "b1"),
           ("config", .dict [("publicAccess", .bool true), ("encryption", .bool false)])]
          now
        = .ok [f₁, f₂] ∧
      f₁.lookup "title" = some (.str ("S3 Bucket Public Access (" ++ framework ++ ")")) ∧
      f₁.lookup "severity" = some (.str "HIGH") ∧
      f₁.lookup "riskScore" = some (.int 75) ∧
      f₂.lookup "title" = some (.str ("S3 Bucket Encryption (" ++ framework ++ ")")) ∧
      f₂.lookup "severity" = some (.str "MEDIUM") ∧
      f₂.lookup "riskScore" = some (.int 60) :=
  ⟨_, _, rfl, rfl, rfl, rfl, rfl, rfl, rfl⟩

/-- Claim C7: the rule-based analyzer is total, and on a resource dictionary with
no `type` key it returns the empty finding list for every framework —
a malformed resource is a no-op, not an error. -/
theorem c7_missing_type_no_findings (framework : String) (resource : Dict) (now : String)
    (h : resource.lookup "type" = Option.none) :
    rule_based_analysis framework resource now = .ok [] := by
  unfold rule_based_analysis
  simp [dGet, h, pyEq]

/-- Witness for C7 at the concrete resource `{id: "x"}`. -/
theorem c7_missing_type_no_findings_witness :
    rule_based_analysis "GDPR" [("id", .str "x")] "t4" = .ok [] :=
  c7_missing_type_no_findings "GDPR" [("id", .str "x")] "t4" rfl

/-- Claim C10: `generate_compliance_report` never propagates an exception: it is a
total function of its inputs and of the outcome of the fallible block.  On a
successful upload the result has status `COMPLETED`; on any internal failure
the result has status `ERROR` and still carries the original `auditRunId`
and the error message. -/
theorem c10_report_never_raises (audit_run_id : String) (findings : List Dict)
    (cs : List (String × ℚ)) (ov : ℚ) (frameworks : List String) (rs : Nat)
    (report_id now ts : String) :
    (∀ url : String,
       (generate_compliance_report audit_run_id findings cs ov frameworks rs
          report_id now ts (.ok url)).status = "COMPLETED" ∧
       (generate_compliance_report audit_run_id findings cs ov frameworks rs
          report_id now ts (.ok url)).auditRunId = audit_run_id) ∧
    (∀ e : String,
       (generate_compliance_report audit_run_id findings cs ov frameworks rs
          report_id now ts (.error e)).status = "ERROR" ∧
       (generate_compliance_report audit_run_id findings cs ov frameworks rs
          report_id now ts (.error e)).auditRunId = audit_run_id ∧
       (generate_compliance_report audit_run_id findings cs ov frameworks rs
          report_id now ts (.error e)).error = some e) :=
  ⟨fun _ => ⟨rfl, rfl⟩, fun _ => ⟨rfl, rfl, rfl⟩⟩

/-- The normalizer's `severity` field is the candidate's, defaulting to
MEDIUM. -/
lemma structured_finding_severity (framework : String) (resource c : Dict) (now : String) :
    (structured_finding framework resource c now).lookup "severity"
      = some (dGet c "severity" (.str "MEDIUM")) := rfl

/-- The normalizer's `riskScore` field is the candidate's, defaulting to 50. -/
lemma structured_finding_riskScore (framework : String) (resource c : Dict) (now : String) :
    (structured_finding framework resource c now).lookup "riskScore"
      = some (dGet c "riskScore" (.int 50)) := rfl

/-- The normalizer's `remediationSteps` field is the candidate's, defaulting
to the empty list. -/
lemma structured_finding_remediationSteps (framework : String) (resource c : Dict)
    (now : String) :
    (structured_finding framework resource c now).lookup "remediationSteps"
      = some (dGet c "remediationSteps" (.list [])) := rfl

/-- The normalizer's `requirement` field is the candidate's, defaulting to
`"<framework> requirement"`. -/
lemma structured_finding_requirement (framework : String) (resource c : Dict) (now : String) :
    (structured_finding framework resource c now).lookup "requirement"
      = some (dGet c "requirement" (.str (framework ++ " requirement"))) := rfl

/-- On a list of candidate dictionaries the parser produces exactly the
one-for-one list of structured findings. -/
lemma parse_candidates_dicts (framework : String) (resource : Dict)
    (cands : List Dict) (now : String) :
    parse_candidates framework resource now (cands.map PyVal.dict)
      = .ok (cands.map (fun c => structured_finding framework resource c now)) := by
  induction cands with
  | nil => rfl
  | cons c cs ih => simp [parse_candidates, ih, Except.map]

/-- `_parse_analysis_result` on a list of candidate dictionaries produces
exactly the one-for-one list of structured findings. -/
lemma parse_analysis_result_dicts (framework : String) (resource : Dict)
    (cands : List Dict) (now : String) :
    parse_analysis_result framework resource (.list (cands.map PyVal.dict)) now
      = .ok (cands.map (fun c => structured_finding framework resource c now)) :=
  parse_candidates_dicts framework resource cands now

/-- Claim C8: on every list of candidate finding records the normalizer produces
exactly one Finding per candidate (it never drops one), and each optional
field is the candidate's value with the policy default when missing:
severity → MEDIUM, riskScore → 50, remediationSteps → `[]`,
requirement → `"<framework> requirement"`. -/
theorem c8_normalizer_one_per_candidate (framework : String) (resource : Dict)
    (cands : List Dict) (now : String) :
    parse_analysis_result framework resource (.list (cands.map PyVal.dict)) now
      = .ok (cands.map (fun c => structured_finding framework resource c now)) ∧
    ∀ c : Dict,
      (structured_finding framework resource c now).lookup "severity"
        = some (dGet c "severity" (.str "MEDIUM")) ∧
      (structured_finding framework resource c now).lookup "riskScore"
        = some (dGet c "riskScore" (.int 50)) ∧
      (structured_finding framework resource c now).lookup "remediationSteps"
        = some (dGet c "remediationSteps" (.list [])) ∧
      (structured_finding framework resource c now).lookup "requirement"
        = some (dGet c "requirement" (.str (framework ++ " requirement"))) :=
  ⟨parse_analysis_result_dicts framework resource cands now,
   fun c => ⟨structured_finding_severity framework resource c now,
             structured_finding_riskScore framework resource c now,
             structured_finding_remediationSteps framework resource c now,
             structured_finding_requirement framework resource c now⟩⟩

/-- Claim C3 counterexample: a candidate whose riskScore is 200 (out of [0,100])
is NOT discarded — the parser still produces one Finding for it, carrying
the out-of-range value, so the claimed validation step does not exist. -/
theorem c3_counterexample_riskScore_200_kept :
    parse_analysis_result "GDPR" [("type", .str "S3_BUCKET"), ("id", .str "b1")]
        (.list [.dict [("riskScore", .int 200)]]) "t0"
      = .ok [structured_finding "GDPR" [("type", .str "S3_BUCKET"), ("id", .str "b1")]
               [("riskScore", .int 200)] "t0"] ∧
    (structured_finding "GDPR" [("type", .str "S3_BUCKET"), ("id", .str "b1")]
        [("riskScore", .int 200)] "t0").lookup "riskScore" = some (.int 200) ∧
    (structured_finding "GDPR" [("type", .str "S3_BUCKET"), ("id", .str "b1")]
        [("riskScore", .int 200)] "t0").lookup "severity" = some (.str "MEDIUM") :=
  ⟨rfl, rfl, rfl⟩

/-- Claim C3 as amended: the parsing/merging step discards no candidate at all —
a candidate with an out-of-range riskScore or an unknown severity token
still yields exactly one Finding carrying that raw value, and all other
candidates for the resource are kept (one output per input, in order). -/
theorem c3_amended_invalid_candidates_kept (framework : String) (resource : Dict)
    (cands : List Dict) (now : String) :
    parse_analysis_result framework resource (.list (cands.map PyVal.dict)) now
      = .ok (cands.map (fun c => structured_finding framework resource c now)) ∧
    (∀ c ∈ cands, ∀ v, c.lookup "riskScore" = some v →
      (structured_finding framework resource c now).lookup "riskScore" = some v) ∧
    (∀ c ∈ cands, ∀ v, c.lookup "severity" = some v →
      (structured_finding framework resource c now).lookup "severity" = some v) := by
  refine ⟨parse_analysis_result_dicts framework resource cands now, ?_, ?_⟩
  · intro c _ v hv
    rw [structured_finding_riskScore]
    simp [dGet, hv]
  · intro c _ v hv
    rw [structured_finding_severity]
    simp [dGet, hv]

/-- Witness for the amended C3 at a two-candidate list: the riskScore-777
candidate and the severity-"ABSURD" candidate are both kept verbatim. -/
theorem c3_amended_invalid_candidates_kept_witness :
    parse_analysis_result "GDPR" []
        (.list [.dict [("riskScore", .int 777)], .dict [("severity", .str "ABSURD")]]) "t1"
      = .ok [structured_finding "GDPR" [] [("riskScore", .int 777)] "t1",
             structured_finding "GDPR" [] [("severity", .str "ABSURD")] "t1"] ∧
    (structured_finding "GDPR" [] [("riskScore", .int 777)] "t1").lookup "riskScore"
      = some (.int 777) ∧
    (structured_finding "GDPR" [] [("severity", .str "ABSURD")] "t1").lookup "severity"
      = some (.str "ABSURD") := by
  obtain ⟨h1, h2, h3⟩ := c3_amended_invalid_candidates_kept "GDPR" []
    [[("riskScore", .int 777)], [("severity", .str "ABSURD")]] "t1"
  exact ⟨h1,
    h2 [("riskScore", .int 777)] (by simp) (.int 777) rfl,
    h3 [("severity", .str "ABSURD")] (by simp) (.str "ABSURD") rfl⟩

/-- Counting helper: if every element of `l` satisfies exactly one of the
four predicates, the four filtered lengths sum to the length of `l`. -/
lemma four_filters_length (l : List Dict) (p₁ p₂ p₃ p₄ : Dict → Bool)
    (h : ∀ f ∈ l, (p₁ f).toNat + (p₂ f).toNat + (p₃ f).toNat + (p₄ f).toNat = 1) :
    (l.filter p₁).length + (l.filter p₂).length + (l.filter p₃).length
      + (l.filter p₄).length = l.length := by
  induction l with
  | nil => rfl
  | cons a as ih =>
      have ha := h a (by simp)
      have hih := ih (fun f hf => h f (by simp [hf]))
      by_cases h1 : p₁ a <;> by_cases h2 : p₂ a <;> by_cases h3 : p₃ a <;> by_cases h4 : p₄ a <;>
        simp [List.filter_cons, h1, h2, h3, h4] at ha ⊢ <;> omega

/-- Claim C4 counterexample: a finding whose severity is the token `"UNKNOWN"`
falls into none of the four buckets, so the bucket sizes sum to 0 while the
input has one finding — the buckets do not partition arbitrary finding
sequences. -/
theorem c4_counterexample_unknown_severity :
    ((findings_by_severity [[("severity", .str "UNKNOWN")]]).map (fun p => p.2.length)).sum = 0 ∧
    ([[("severity", PyVal.str "UNKNOWN")]] : List Dict).length = 1 :=
  ⟨rfl, rfl⟩

/-- Claim C4 as amended: for finding sequences in which every finding's severity
is one of the four tokens CRITICAL/HIGH/MEDIUM/LOW, the four severity
buckets of `findings_by_severity` form a partition: the bucket sizes sum to
the total count, and every finding lies in exactly one bucket. -/
theorem c4_amended_severity_partition (findings : List Dict)
    (h : ∀ f ∈ findings, ∃ s ∈ (["CRITICAL", "HIGH", "MEDIUM", "LOW"] : List String),
        f.lookup "severity" = some (.str s)) :
    ((findings_by_severity findings).map (fun p => p.2.length)).sum = findings.length ∧
    ∀ f ∈ findings, ∃! p : String × List Dict,
      p ∈ findings_by_severity findings ∧ f ∈ p.2 := by
  constructor
  · have hsum := four_filters_length findings
      (sevIs "CRITICAL") (sevIs "HIGH") (sevIs "MEDIUM") (sevIs "LOW") ?_
    · simp only [findings_by_severity, List.map_cons, List.map_nil, List.sum_cons,
        List.sum_nil]
      omega
    · intro f hf
      obtain ⟨s, hs, hv⟩ := h f hf
      fin_cases hs <;> simp [sevIs, hv]
  · intro f hf
    obtain ⟨s, hs, hv⟩ := h f hf
    fin_cases hs
    · refine ⟨("CRITICAL", findings.filter (sevIs "CRITICAL")),
        ⟨by simp [findings_by_severity], List.mem_filter.2 ⟨hf, by simp [sevIs, hv]⟩⟩, ?_⟩
      rintro q ⟨hq, hfq⟩
      simp only [findings_by_severity, List.mem_cons, List.not_mem_nil, or_false] at hq
      rcases hq with rfl | rfl | rfl | rfl
      · rfl
      all_goals exact absurd (List.mem_filter.1 hfq).2 (by simp [sevIs, hv])
    · refine ⟨("HIGH", findings.filter (sevIs "HIGH")),
        ⟨by simp [findings_by_severity], List.mem_filter.2 ⟨hf, by simp [sevIs, hv]⟩⟩, ?_⟩
      rintro q ⟨hq, hfq⟩
      simp only [findings_by_severity, List.mem_cons, List.not_mem_nil, or_false] at hq
      rcases hq with rfl | rfl | rfl | rfl
      · exact absurd (List.mem_filter.1 hfq).2 (by simp [sevIs, hv])
      · rfl
      all_goals exact absurd (List.mem_filter.1 hfq).2 (by simp [sevIs, hv])
    · refine ⟨("MEDIUM", findings.filter (sevIs "MEDIUM")),
        ⟨by simp [findings_by_severity], List.mem_filter.2 ⟨hf, by simp [sevIs, hv]⟩⟩, ?_⟩
      rintro q ⟨hq, hfq⟩
      simp only [findings_by_severity, List.mem_cons, List.not_mem_nil, or_false] at hq
      rcases hq with rfl | rfl | rfl | rfl
      · exact absurd (List.mem_filter.1 hfq).2 (by simp [sevIs, hv])
      · exact absurd (List.mem_filter.1 hfq).2 (by simp [sevIs, hv])
      · rfl
      · exact absurd (List.mem_filter.1 hfq).2 (by simp [sevIs, hv])
    · refine ⟨("LOW", findings.filter (sevIs "LOW")),
        ⟨by simp [findings_by_severity], List.mem_filter.2 ⟨hf, by simp [sevIs, hv]⟩⟩, ?_⟩
      rintro q ⟨hq, hfq⟩
      simp only [findings_by_severity, List.mem_cons, List.not_mem_nil, or_false] at hq
      rcases hq with rfl | rfl | rfl | rfl
      all_goals first
        | rfl
        | exact absurd (List.mem_filter.1 hfq).2 (by simp [sevIs, hv])

/-- Witness for the amended C4 at the singleton list with a HIGH finding. -/
theorem c4_amended_severity_partition_witness :
    ((findings_by_severity [[("severity", .str "HIGH")]]).map (fun p => p.2.length)).sum = 1 ∧
    ∃! p : String × List Dict,
      p ∈ findings_by_severity [[("severity", .str "HIGH")]] ∧
      ([("severity", PyVal.str "HIGH")] : Dict) ∈ p.2 := by
  obtain ⟨h1, h2⟩ := c4_amended_severity_partition [[("severity", .str "HIGH")]]
    (by intro f hf; simp only [List.mem_cons, List.not_mem_nil, or_false] at hf;
        subst hf; exact ⟨"HIGH", by simp, rfl⟩)
  exact ⟨h1, h2 _ (by simp)⟩

/-- Evaluation of the rule engine on an S3 bucket with a dictionary config:
the public-access rule and the encryption rule fire independently. -/
lemma rule_s3_dict (framework : String) (idv : PyVal) (cfg : List (String × PyVal))
    (now : String) :
    rule_based_analysis framework
        [("type", .str "S3_BUCKET"), ("id", idv), ("config", .dict cfg)] now
      = .ok ((if truthy (dGet cfg "publicAccess" (.bool false))
              then [s3_public_finding framework
                      [("type", .str "S3_BUCKET"), ("id", idv), ("config", .dict cfg)] now]
              else []) ++
             (if !truthy (dGet cfg "encryption" (.bool false))
              then [s3_encryption_finding framework
                      [("type", .str "S3_BUCKET"), ("id", idv), ("config", .dict cfg)] now]
              else [])) := rfl

/-- The encryption finding and the public-access finding are distinct
(their titles differ in length). -/
lemma s3_encryption_ne_public (fw : String) (r r' : Dict) (n n' : String) :
    s3_encryption_finding fw r n ≠ s3_public_finding fw r' n' := by
  intro h
  simp only [s3_encryption_finding, s3_public_finding, List.cons.injEq, Prod.mk.injEq,
    PyVal.str.injEq, true_and] at h
  have hl := congrArg String.length h.1
  have e1 : ("S3 Bucket Encryption (" : String).length = 22 := rfl
  have e2 : ("S3 Bucket Public Access (" : String).length = 25 := rfl
  simp only [String.length_append, e1, e2] at hl
  omega

/-- Claim C5 counterexample: on an S3 bucket whose config maps `encryption` to the
empty string — a value present and not equal to `false` — the rule engine
nevertheless produces the MEDIUM/60 encryption finding, because the code
tests Python truthiness of `config.get('encryption', False)`, not equality
with `false`. -/
theorem c5_counterexample_empty_string :
    rule_based_analysis "GDPR"
        [("type", .str "S3_BUCKET"), ("id", .str "b2"),
         ("config", .dict [("encryption", .str "")])] "t3"
      = .ok [s3_encryption_finding "GDPR"
               [("type", .str "S3_BUCKET"), ("id", .str "b2"),
                ("config", .dict [("encryption", .str "")])] "t3"] ∧
    ([("encryption", PyVal.str "")] : List (String × PyVal)).lookup "encryption"
      = some (.str "") ∧
    PyVal.str "" ≠ PyVal.bool false ∧
    (s3_encryption_finding "GDPR"
        [("type", .str "S3_BUCKET"), ("id", .str "b2"),
         ("config", .dict [("encryption", .str "")])] "t3").lookup "severity"
      = some (.str "MEDIUM") :=
  ⟨rfl, rfl, fun h => PyVal.noConfusion h, rfl⟩

/-- Claim C5 as amended: for every S3 bucket with a dictionary config, the
MEDIUM/60 encryption finding is produced exactly when the config's
`encryption` value — defaulting to `false` when the key is absent — is
FALSY under Python truthiness (so also for `null`, `0`, `""`, or empty
containers, not only for the boolean `false`). -/
theorem c5_amended_encryption_iff_falsy (framework : String) (idv : PyVal)
    (cfg : List (String × PyVal)) (now : String) :
    ∃ fs, rule_based_analysis framework
        [("type", .str "S3_BUCKET"), ("id", idv), ("config", .dict cfg)] now = .ok fs ∧
      ((s3_encryption_finding framework
          [("type", .str "S3_BUCKET"), ("id", idv), ("config", .dict cfg)] now ∈ fs)
        ↔ truthy (dGet cfg "encryption" (.bool false)) = false) ∧
      (s3_encryption_finding framework
          [("type", .str "S3_BUCKET"), ("id", idv), ("config", .dict cfg)] now).lookup
          "severity" = some (.str "MEDIUM") ∧
      (s3_encryption_finding framework
          [("type", .str "S3_BUCKET"), ("id", idv), ("config", .dict cfg)] now).lookup
          "riskScore" = some (.int 60) := by
  refine ⟨_, rule_s3_dict framework idv cfg now, ?_, rfl, rfl⟩
  rcases he : truthy (dGet cfg "encryption" (.bool false)) with _ | _
  · simp
  · refine iff_of_false ?_ (by simp)
    intro hmem
    simp only [Bool.not_true] at hmem
    rw [if_neg (by simp : ¬((false : Bool) = true)), List.append_nil] at hmem
    rcases hp : truthy (dGet cfg "publicAccess" (PyVal.bool false)) with _ | _
    · rw [hp] at hmem
      simp at hmem
    · rw [hp] at hmem
      simp at hmem
      exact s3_encryption_ne_public framework _ _ now now hmem

/-- Claim C9: the rule-based analyzer is deterministic up to the wall clock — two
evaluations on identical framework and resource, at any two times, produce
the very same findings (same title, description, severity, resourceType,
resourceId, complianceFrameworks, riskScore, remediationSteps,
requirement) once the `createdAt` field is dropped; in particular the same
number of findings from the same rules. -/
theorem c9_two_run_determinism (framework : String) (resource : Dict)
    (now₁ now₂ : String) :
    (rule_based_analysis framework resource now₁).map (List.map eraseCreatedAt)
      = (rule_based_analysis framework resource now₂).map (List.map eraseCreatedAt) := by
  unfold rule_based_analysis
  dsimp only
  repeat' split <;> try rfl

/-! ### Dictionary-update lemmas for the scoring loop -/

/-- A dictionary with no binding for `k` looks up `k` to `none`. -/
lemma lookup_of_no_key (d : List (String × ℚ)) (k : String) :
    d.any (fun p => p.1 == k) = false → d.lookup k = Option.none := by
  induction d with
  | nil => intro _; rfl
  | cons p ps ih =>
      intro h
      rcases p with ⟨a, b⟩
      simp only [List.any_cons, Bool.or_eq_false_iff] at h
      have hka : (k == a) = false := by
        rw [beq_eq_false_iff_ne] at h ⊢
        exact fun e => h.1 e.symm
      simp [List.lookup, hka, ih h.2]

/-- Replacing the `k`-bindings in a dictionary that has one makes `k` look
up to the new value. -/
lemma lookup_mapReplace_self (d : List (String × ℚ)) (k : String) (v : ℚ) :
    d.any (fun p => p.1 == k) = true →
    (d.map (fun p => if p.1 == k then (k, v) else p)).lookup k = some v := by
  induction d with
  | nil => intro h; simp at h
  | cons p ps ih =>
      intro h
      rcases p with ⟨a, b⟩
      rcases hak : (a == k) with _ | _
      · have h' : ps.any (fun p => p.1 == k) = true := by
          simpa [List.any_cons, hak] using h
        have hka : (k == a) = false := by
          rw [beq_eq_false_iff_ne] at hak ⊢
          exact fun e => hak e.symm
        have hhead : (if (a == k) = true then ((k, v) : String × ℚ) else (a, b))
            = (a, b) := by
          simp [hak]
        simp only [List.map_cons]
        rw [hhead]
        simp only [List.lookup, hka]
        exact ih h'
      · have hhead : (if (a == k) = true then ((k, v) : String × ℚ) else (a, b))
            = (k, v) := by
          simp [hak]
        simp only [List.map_cons]
        rw [hhead]
        simp [List.lookup]

/-- Replacing the `k`-bindings leaves every other key's lookup unchanged. -/
lemma lookup_mapReplace_ne (d : List (String × ℚ)) (k : String) (v : ℚ) (l : String)
    (hne : (l == k) = false) :
    (d.map (fun p => if p.1 == k then (k, v) else p)).lookup l = d.lookup l := by
  induction d with
  | nil => rfl
  | cons p ps ih =>
      rcases p with ⟨a, b⟩
      rcases hak : (a == k) with _ | _
      · have hhead : (if (a == k) = true then ((k, v) : String × ℚ) else (a, b))
            = (a, b) := by
          simp [hak]
        simp only [List.map_cons]
        rw [hhead]
        simp only [List.lookup, ih]
      · have hla : (l == a) = false := by
          rw [beq_iff_eq] at hak
          rw [beq_eq_false_iff_ne] at hne ⊢
          exact fun e => hne (e.trans hak)
        have hhead : (if (a == k) = true then ((k, v) : String × ℚ) else (a, b))
            = (k, v) := by
          simp [hak]
        simp only [List.map_cons]
        rw [hhead]
        simp only [List.lookup, hne, hla, ih]

/-- Appending a fresh binding is invisible to a key that differs from the
appended one. -/
lemma lookup_append_single_ne (d : List (String × ℚ)) (k : String) (v : ℚ) (l : String)
    (hne : (l == k) = false) :
    (d ++ [(k, v)]).lookup l = d.lookup l := by
  induction d with
  | nil => simp [List.lookup, hne]
  | cons p ps ih =>
      rcases p with ⟨a, b⟩
      rcases hla : (l == a) with _ | _
      · simp only [List.cons_append, List.lookup, hla]
        exact ih
      · simp only [List.cons_append, List.lookup, hla]

/-- Appending the binding for a key the dictionary lacks makes the key look
up to the appended value. -/
lemma lookup_append_single_self (d : List (String × ℚ)) (k : String) (v : ℚ)
    (h : d.lookup k = Option.none) : (d ++ [(k, v)]).lookup k = some v := by
  induction d with
  | nil => simp [List.lookup]
  | cons p ps ih =>
      rcases p with ⟨a, b⟩
      rcases hka : (k == a) with _ | _
      · rw [List.cons_append]
        simp only [List.lookup, hka] at h ⊢
        exact ih h
      · simp only [List.lookup, hka] at h
        exact Option.noConfusion h

/-- `dictInsert` makes `k` look up to `v`. -/
lemma lookup_dictInsert_self (d : List (String × ℚ)) (k : String) (v : ℚ) :
    (dictInsert d k v).lookup k = some v := by
  unfold dictInsert
  split
  case isTrue h => exact lookup_mapReplace_self d k v h
  case isFalse h =>
    exact lookup_append_single_self d k v
      (lookup_of_no_key d k (Bool.eq_false_iff.mpr h))

/-- `dictInsert` leaves every other key's lookup unchanged. -/
lemma lookup_dictInsert_ne (d : List (String × ℚ)) (k : String) (v : ℚ) (l : String)
    (hne : l ≠ k) : (dictInsert d k v).lookup l = d.lookup l := by
  have hne' : (l == k) = false := beq_eq_false_iff_ne.2 hne
  unfold dictInsert
  split
  · exact lookup_mapReplace_ne d k v l hne'
  · exact lookup_append_single_ne d k v l hne'

/-- Every entry of `dictInsert d k v` is an entry of `d` or the pair
`(k, v)`. -/
lemma dictInsert_mem {d : List (String × ℚ)} {k : String} {v : ℚ} {p : String × ℚ}
    (hp : p ∈ dictInsert d k v) : p ∈ d ∨ p = (k, v) := by
  unfold dictInsert at hp
  split at hp
  · obtain ⟨q, hq, hqe⟩ := List.mem_map.1 hp
    by_cases hqk : (q.1 == k) = true
    · rw [if_pos hqk] at hqe
      exact Or.inr hqe.symm
    · simp only [Bool.not_eq_true] at hqk
      rw [if_neg (by simp [hqk])] at hqe
      exact Or.inl (hqe ▸ hq)
  · rcases List.mem_append.1 hp with h | h
    · exact Or.inl h
    · exact Or.inr (List.mem_singleton.1 h)

/-- `dictInsert` never shrinks a dictionary. -/
lemma dictInsert_le_length (d : List (String × ℚ)) (k : String) (v : ℚ) :
    d.length ≤ (dictInsert d k v).length := by
  unfold dictInsert
  split <;> simp

/-- `dictInsert` is never empty. -/
lemma dictInsert_ne_nil (d : List (String × ℚ)) (k : String) (v : ℚ) :
    dictInsert d k v ≠ [] := by
  unfold dictInsert
  split
  case isTrue h =>
    cases d with
    | nil => simp at h
    | cons p ps => simp
  case isFalse h => simp

/-! ### The scoring loop computes the specification's formula -/

/-- When every riskScore value is an integer, Python's sum succeeds and
equals the sum of the rational readings. -/
lemma sum_risk_eq (l : List Dict) (h : ∀ f ∈ l, ∃ n : ℤ, riskScoreVal f = .int n) :
    sum_risk l = some ((l.map riskNum).sum) := by
  induction l with
  | nil => rfl
  | cons f fs ih =>
      obtain ⟨n, hn⟩ := h f (by simp)
      have hfs := ih (fun g hg => h g (by simp [hg]))
      simp [sum_risk, hn, hfs, riskNum, pyNum]

/-- When every riskScore value is an integer, the code's per-framework score
is defined and equals the specification's formula. -/
lemma framework_score_eq (findingsFor : String → List Dict) (fw : String)
    (h : ∀ f ∈ findingsFor fw, ∃ n : ℤ, riskScoreVal f = .int n) :
    framework_score (findingsFor fw) = some (spec_framework_score findingsFor fw) := by
  unfold framework_score spec_framework_score
  rcases he : (findingsFor fw).isEmpty with _ | _
  · simp [he, sum_risk_eq _ h]
  · simp [he]

/-- Behaviour of the scoring loop of main.py:53-63 over any accumulator:
it succeeds, assigns every requested framework the specification's score,
leaves other keys alone, only adds specification scores, and never shrinks
the dictionary. -/
lemma compliance_scores_loop_spec (findingsFor : String → List Dict) :
    ∀ (fws : List String) (acc : List (String × ℚ)),
    (∀ fw ∈ fws, ∀ f ∈ findingsFor fw, ∃ n : ℤ, riskScoreVal f = .int n) →
    ∃ scores, compliance_scores_loop findingsFor acc fws = some scores ∧
      (∀ fw ∈ fws, scores.lookup fw = some (spec_framework_score findingsFor fw)) ∧
      (∀ k, k ∉ fws → scores.lookup k = acc.lookup k) ∧
      (∀ p ∈ scores, p ∈ acc ∨
        (p.1 ∈ fws ∧ p.2 = spec_framework_score findingsFor p.1)) ∧
      acc.length ≤ scores.length ∧
      (fws ≠ [] → scores ≠ []) := by
  intro fws
  induction fws with
  | nil =>
      intro acc _
      exact ⟨acc, rfl, by simp, fun _ _ => rfl, fun p hp => Or.inl hp, le_refl _,
        fun hne => absurd rfl hne⟩
  | cons fw₀ fws ih =>
      intro acc h
      have h₀ : framework_score (findingsFor fw₀)
          = some (spec_framework_score findingsFor fw₀) :=
        framework_score_eq findingsFor fw₀ (h fw₀ (by simp))
      obtain ⟨scores, hs, h2, h3, h4, h5, _⟩ :=
        ih (dictInsert acc fw₀ (spec_framework_score findingsFor fw₀))
          (fun fw hfw f hf => h fw (by simp [hfw]) f hf)
      refine ⟨scores, ?_, ?_, ?_, ?_, ?_, ?_⟩
      · simp only [compliance_scores_loop, h₀]
        exact hs
      · intro fw hfw
        rcases List.mem_cons.1 hfw with rfl | hfw'
        · by_cases hmem : fw ∈ fws
          · exact h2 fw hmem
          · rw [h3 fw hmem, lookup_dictInsert_self]
        · exact h2 fw hfw'
      · intro k hk
        have hk1 : k ≠ fw₀ := fun e => hk (e ▸ List.mem_cons_self _ _)
        have hk2 : k ∉ fws := fun e => hk (List.mem_cons_of_mem _ e)
        rw [h3 k hk2, lookup_dictInsert_ne _ _ _ _ hk1]
      · intro p hp
        rcases h4 p hp with hpacc | hgood
        · rcases dictInsert_mem hpacc with hin | hkv
          · exact Or.inl hin
          · right
            rw [hkv]
            exact ⟨List.mem_cons_self _ _, rfl⟩
        · exact Or.inr ⟨List.mem_cons_of_mem _ hgood.1, hgood.2⟩
      · exact le_trans (dictInsert_le_length acc fw₀ _) h5
      · intro _
        have h1le : 1 ≤ (dictInsert acc fw₀ (spec_framework_score findingsFor fw₀)).length := by
          rcases hd : dictInsert acc fw₀ (spec_framework_score findingsFor fw₀) with _ | _
          · exact absurd hd (dictInsert_ne_nil acc fw₀ _)
          · simp
        have : 1 ≤ scores.length := le_trans h1le h5
        exact List.ne_nil_of_length_pos this

/-- Claim C2: for integer riskScores, the scoring step of `audit_compliance`
assigns every requested framework a score equal to the specification's
formula — exactly `100.0` when that framework's finding list is empty, and
`max(0, 100 - mean(riskScore))` otherwise — and the overall score is the
arithmetic mean of the per-framework scores, or `100.0` when no framework
was requested. -/
theorem c2_compliance_scoring (compliance_frameworks : List String)
    (findingsFor : String → List Dict)
    (hnum : ∀ fw ∈ compliance_frameworks, ∀ f ∈ findingsFor fw,
        ∃ n : ℤ, riskScoreVal f = .int n) :
    ∃ scores, compliance_scores compliance_frameworks findingsFor = some scores ∧
      (∀ fw ∈ compliance_frameworks,
        scores.lookup fw = some (spec_framework_score findingsFor fw)) ∧
      overall_score scores =
        (if compliance_frameworks = [] then 100
         else (scores.map Prod.snd).sum / (scores.length : ℚ)) := by
  obtain ⟨scores, hs, h2, h3, _, _, h6⟩ :=
    compliance_scores_loop_spec findingsFor compliance_frameworks [] hnum
  refine ⟨scores, hs, h2, ?_⟩
  rcases eq_or_ne compliance_frameworks [] with rfl | hne
  · have : scores = [] := by
      simpa [compliance_scores_loop] using hs.symm
    subst this
    simp [overall_score]
  · have hscores : scores ≠ [] := h6 hne
    rw [if_neg hne]
    unfold overall_score
    rw [if_neg (by simpa [List.isEmpty_iff] using hscores)]

/-- Witness for C2 at Scenario D: one framework "PCI-DSS" with findings of
riskScore 90 and 70 scores exactly 20, and so does the overall score. -/
theorem c2_compliance_scoring_witness :
    ∃ scores, compliance_scores ["PCI-DSS"]
        (fun _ => [[("riskScore", .int 90)], [("riskScore", .int 70)]]) = some scores ∧
      scores.lookup "PCI-DSS" = some 20 ∧ overall_score scores = 20 := by
  obtain ⟨scores, h1, h2, h3⟩ := c2_compliance_scoring ["PCI-DSS"]
    (fun _ => [[("riskScore", .int 90)], [("riskScore", .int 70)]])
    (by
      intro fw _ f hf
      rcases List.mem_cons.1 hf with rfl | hf'
      · exact ⟨90, rfl⟩
      · rcases List.mem_cons.1 hf' with rfl | hf''
        · exact ⟨70, rfl⟩
        · exact absurd hf'' (List.not_mem_nil f))
  have hspec : spec_framework_score
      (fun _ => [[("riskScore", .int 90)], [("riskScore", .int 70)]]) "PCI-DSS" = 20 := by
    norm_num [spec_framework_score, riskNum, riskScoreVal, dGet, pyNum]
  refine ⟨scores, h1, ?_, ?_⟩
  · rw [h2 "PCI-DSS" (by simp), hspec]
  · have hc : compliance_scores ["PCI-DSS"]
        (fun _ => [[("riskScore", .int 90)], [("riskScore", .int 70)]])
        = some [("PCI-DSS", (20 : ℚ))] := by
      norm_num [compliance_scores, compliance_scores_loop, framework_score, sum_risk,
        riskScoreVal, dGet, pyNum, dictInsert]
    rw [h1] at hc
    obtain rfl : scores = [("PCI-DSS", (20 : ℚ))] := Option.some.inj hc
    norm_num [overall_score]

/-- The mean of a nonempty list of rationals in `[0, 100]` lies in
`[0, 100]`. -/
lemma mean_bounds (l : List ℚ) (hne : l ≠ []) (h0 : ∀ x ∈ l, 0 ≤ x)
    (h100 : ∀ x ∈ l, x ≤ 100) :
    0 ≤ l.sum / (l.length : ℚ) ∧ l.sum / (l.length : ℚ) ≤ 100 := by
  have hlen : 0 < (l.length : ℚ) := by
    exact_mod_cast List.length_pos.2 hne
  constructor
  · exact div_nonneg (List.sum_nonneg h0) hlen.le
  · rw [div_le_iff₀ hlen]
    calc l.sum ≤ l.length • (100 : ℚ) := List.sum_le_card_nsmul l 100 h100
    _ = 100 * l.length := by rw [nsmul_eq_mul]; ring

/-- When every riskScore reading lies in `[0, 100]`, so does the
specification's per-framework score. -/
lemma spec_framework_score_bounds (findingsFor : String → List Dict) (fw : String)
    (h : ∀ f ∈ findingsFor fw, 0 ≤ riskNum f ∧ riskNum f ≤ 100) :
    0 ≤ spec_framework_score findingsFor fw ∧
      spec_framework_score findingsFor fw ≤ 100 := by
  unfold spec_framework_score
  rcases he : (findingsFor fw).isEmpty with _ | _
  · rw [if_neg (by simp [he])]
    have hne0 : findingsFor fw ≠ [] := by
      simpa [List.isEmpty_iff] using he
    have hne : (findingsFor fw).map riskNum ≠ [] := by
      simp [hne0]
    have h0 : ∀ x ∈ (findingsFor fw).map riskNum, 0 ≤ x := by
      intro x hx
      obtain ⟨f, hf, rfl⟩ := List.mem_map.1 hx
      exact (h f hf).1
    have h100 : ∀ x ∈ (findingsFor fw).map riskNum, x ≤ 100 := by
      intro x hx
      obtain ⟨f, hf, rfl⟩ := List.mem_map.1 hx
      exact (h f hf).2
    obtain ⟨hm0, hm100⟩ := mean_bounds _ hne h0 h100
    rw [List.length_map] at hm0 hm100
    refine ⟨le_max_left 0 _, max_le (by norm_num) ?_⟩
    linarith
  · rw [if_pos (by simp [he])]
    norm_num

/-- Claim C6: when every finding's riskScore (after the code's default of 50 for
a missing key) is an integer in `[0, 100]`, every per-framework compliance
score computed by the scoring step lies in `[0, 100]`, and so does the
overall score. -/
theorem c6_scores_bounded (compliance_frameworks : List String)
    (findingsFor : String → List Dict)
    (hnum : ∀ fw ∈ compliance_frameworks, ∀ f ∈ findingsFor fw,
        ∃ n : ℤ, riskScoreVal f = .int n ∧ 0 ≤ n ∧ n ≤ 100) :
    ∃ scores, compliance_scores compliance_frameworks findingsFor = some scores ∧
      (∀ p ∈ scores, 0 ≤ p.2 ∧ p.2 ≤ 100) ∧
      0 ≤ overall_score scores ∧ overall_score scores ≤ 100 := by
  obtain ⟨scores, hs, _, _, h4, _, _⟩ :=
    compliance_scores_loop_spec findingsFor compliance_frameworks []
      (fun fw hfw f hf => (hnum fw hfw f hf).elim (fun n hn => ⟨n, hn.1⟩))
  have hbound : ∀ p ∈ scores, 0 ≤ p.2 ∧ p.2 ≤ 100 := by
    intro p hp
    rcases h4 p hp with habs | ⟨hpfw, hpval⟩
    · exact absurd habs (List.not_mem_nil p)
    · rw [hpval]
      refine spec_framework_score_bounds findingsFor p.1 ?_
      intro f hf
      obtain ⟨n, hn, hn0, hn100⟩ := hnum p.1 hpfw f hf
      have : riskNum f = (n : ℚ) := by
        simp [riskNum, hn, pyNum]
      rw [this]
      exact ⟨by exact_mod_cast hn0, by exact_mod_cast hn100⟩
  refine ⟨scores, hs, hbound, ?_⟩
  unfold overall_score
  rcases he : scores.isEmpty with _ | _
  · rw [if_neg (by simp [he])]
    have hne : scores.map Prod.snd ≠ [] := by
      simp only [ne_eq, List.map_eq_nil_iff]
      simpa [List.isEmpty_iff] using he
    have h0 : ∀ x ∈ scores.map Prod.snd, 0 ≤ x := by
      intro x hx
      obtain ⟨p, hp, rfl⟩ := List.mem_map.1 hx
      exact (hbound p hp).1
    have h100 : ∀ x ∈ scores.map Prod.snd, x ≤ 100 := by
      intro x hx
      obtain ⟨p, hp, rfl⟩ := List.mem_map.1 hx
      exact (hbound p hp).2
    obtain ⟨hm0, hm100⟩ := mean_bounds _ hne h0 h100
    rw [List.length_map] at hm0 hm100
    exact ⟨hm0, hm100⟩
  · rw [if_pos (by simp [he])]
    norm_num

/-- Witness for C6 at two frameworks, one with findings of riskScore 75 and
60, the other with none. -/
theorem c6_scores_bounded_witness :
    ∃ scores, compliance_scores ["GDPR", "SOC2"]
        (fun fw => if fw = "GDPR"
          then [[("riskScore", .int 75)], [("riskScore", .int 60)]] else [])
        = some scores ∧
      (∀ p ∈ scores, 0 ≤ p.2 ∧ p.2 ≤ 100) ∧
      0 ≤ overall_score scores ∧ overall_score scores ≤ 100 := by
  refine c6_scores_bounded ["GDPR", "SOC2"]
    (fun fw => if fw = "GDPR"
      then [[("riskScore", .int 75)], [("riskScore", .int 60)]] else []) ?_
  intro fw _ f hf
  simp only at hf
  by_cases hfw : fw = "GDPR"
  · rw [if_pos hfw] at hf
    rcases List.mem_cons.1 hf with rfl | hf'
    · exact ⟨75, rfl, by norm_num, by norm_num⟩
    · rcases List.mem_cons.1 hf' with rfl | hf''
      · exact ⟨60, rfl, by norm_num, by norm_num⟩
      · exact absurd hf'' (List.not_mem_nil f)
  · rw [if_neg hfw] at hf
    exact absurd hf (List.not_mem_nil f)

end SecureAuditAI
